import Mathlib

/-!
# Verification of the ICMP Echo codec and receive loop

Shallow embedding of the ICMP message codec and the receive/match loop
found in `src/src/pkg/net/ipraw_test.go` (Go), together with proofs of the
specification's claims about them.

Conventions of the embedding:
* a Go `byte` is `Fin 256`; a `[]byte` is `List Byte`;
* Go `int` fields that only ever carry non-negative values (`Type`, `Code`,
  `Checksum`, `ID`, `Seq`) are `Nat`; where the Go code truncates with
  `byte(x)` we write `x % 256`;
* a Go nil slice is `none`, a non-nil slice `some l` (the code distinguishes
  them: `parseICMPEcho` only allocates `Data` when more than 4 body bytes
  remain);
* `uint32` arithmetic is `Nat` with an explicit `% 2^32` where wrap-around
  matters; `x >> k` is `x / 2^k`, `x & 0xffff` is `x % 2^16`, and on a
  value `s < 2^32` the complement `^s` is `2^32 - 1 - s`;
* fallible Go functions return `GoResult`; a runtime panic (index out of
  range) is the distinguished outcome `GoResult.indexOutOfRange`.
-/

/-- A Go `byte`. -/
abbrev Byte := Fin 256

/-- Go `byte(n)` for a non-negative `n`: truncation mod 256. -/
def byteOf (n : Nat) : Byte := ⟨n % 256, Nat.mod_lt n (by omega)⟩

/-- Outcome of a fallible Go function: a value, a returned `error`, or a
runtime panic (out-of-range index). -/
inductive GoResult (α : Type) where
  | ok : α → GoResult α
  | err : GoResult α
  | indexOutOfRange : GoResult α
deriving DecidableEq

/-- Whether a `GoResult` is a successfully returned value. -/
def GoResult.isOk {α : Type} : GoResult α → Bool
  | .ok _ => true
  | _ => false

/-- `const icmpv4EchoRequest = 8` -/
def icmpv4EchoRequest : Nat := 8
/-- `const icmpv4EchoReply = 0` -/
def icmpv4EchoReply : Nat := 0
/-- `const icmpv6EchoRequest = 128` -/
def icmpv6EchoRequest : Nat := 128
/-- `const icmpv6EchoReply = 129` -/
def icmpv6EchoReply : Nat := 129

/-- `icmpEcho` represents an ICMP echo request or reply message body:
`ID`, `Seq` are Go `int`s, `Data` a Go `[]byte` (`none` = nil slice). -/
structure icmpEcho where
  ID : Nat
  Seq : Nat
  Data : Option (List Byte)
deriving DecidableEq

/-- `func (p *icmpEcho) Len() int`: `4 + len(p.Data)` (Go `len` of a nil
slice is 0; the `p == nil` receiver case is the absent body, modelled at
the message level by `Option`). -/
def icmpEcho.len (p : icmpEcho) : Nat := 4 + (p.Data.getD []).length

/-- `func (p *icmpEcho) Marshal() ([]byte, error)`:
`b[0], b[1] = byte(p.ID>>8), byte(p.ID)`,
`b[2], b[3] = byte(p.Seq>>8), byte(p.Seq)`, `copy(b[4:], p.Data)`.
The returned error is always nil in the source, so the result is a plain
byte list. -/
def icmpEcho.marshal (p : icmpEcho) : List Byte :=
  byteOf (p.ID / 256) :: byteOf p.ID :: byteOf (p.Seq / 256) :: byteOf p.Seq ::
    (p.Data.getD [])

/-- `icmpMessage` represents an ICMP message.  The Go field `Type` collides
with a Lean keyword, hence `Type'`.  `Body` is the interface field
`icmpMessageBody`; the only implementation in the source is `*icmpEcho`,
and a nil interface is `none`. -/
structure icmpMessage where
  Type' : Nat
  Code : Nat
  Checksum : Nat
  Body : Option icmpEcho
deriving DecidableEq

/-- The body part appended in `icmpMessage.Marshal`:
`if m.Body != nil && m.Body.Len() != 0 { b = append(b, m.Body.Marshal()...) }`. -/
def icmpMessage.bodyBytes (m : icmpMessage) : List Byte :=
  match m.Body with
  | some p => if p.len ≠ 0 then p.marshal else []
  | none => []

/-- The checksum accumulation loop of `icmpMessage.Marshal`, before the
`uint32` wrap is taken:
`for i := 0; i < csumcv; i += 2 { s += uint32(b[i+1])<<8 | uint32(b[i]) }`
followed by `if csumcv&1 == 0 { s += uint32(b[csumcv]) }`, with
`csumcv = len(b) - 1`.  For a buffer of even length the loop covers all
bytes in 2-byte words and the trailing-byte branch is skipped
(`csumcv` odd); for odd length the loop covers all but the last byte and
the final byte `b[csumcv]` is added on its own.  That is exactly a fold
over 2-byte chunks, the word `uint32(b[i+1])<<8 | uint32(b[i])` being
`256 * b[i+1] + b[i]` since both operands are bytes. -/
def csumAdd : List Byte → Nat
  | x :: y :: rest => (256 * y.val + x.val) + csumAdd rest
  | [x] => x.val
  | [] => 0

/-- The wrapped accumulator `s`: the Go loop adds in `uint32`, which is the
plain sum reduced `% 2^32`. -/
def csumWrap (b : List Byte) : Nat := csumAdd b % 2 ^ 32

/-- The two folding steps of `icmpMessage.Marshal`:
`s = s>>16 + s&0xffff; s = s + s>>16` (on `uint32`; for `s < 2^32` no
further wrap can occur since the result is at most `0x1FFFF`). -/
def csumFold (s : Nat) : Nat :=
  (s / 2 ^ 16 + s % 2 ^ 16) + (s / 2 ^ 16 + s % 2 ^ 16) / 2 ^ 16

/-- `^s` on a `uint32` value `s < 2^32`: bitwise complement, i.e.
`0xFFFFFFFF - s`. -/
def compl32 (s : Nat) : Nat := 2 ^ 32 - 1 - s

/-- The checksum block at the end of `icmpMessage.Marshal`: compute the
folded sum `s` over the whole buffer and then
`b[2] ^= byte(^s); b[3] ^= byte(^s >> 8)`.
Only bytes 2 and 3 change; the buffer handed to it by `Marshal` always has
at least the 4 header bytes. -/
def applyChecksum (b : List Byte) : List Byte :=
  match b with
  | t :: c :: x2 :: x3 :: rest =>
      t :: c ::
        byteOf (Nat.xor x2.val (compl32 (csumFold (csumWrap (t :: c :: x2 :: x3 :: rest))) % 256)) ::
        byteOf (Nat.xor x3.val (compl32 (csumFold (csumWrap (t :: c :: x2 :: x3 :: rest))) / 256 % 256)) ::
        rest
  | _ => b

/-- `func (m *icmpMessage) Marshal() ([]byte, error)`:
build `b = [byte(m.Type), byte(m.Code), 0, 0]`, append the body encoding,
return `b` unchanged for the IPv6 echo types, otherwise place the Internet
checksum into bytes 2 and 3 (`applyChecksum`).  The error return is always
nil in the source (the body `Marshal` cannot fail), so the result is a
plain byte list. -/
def icmpMessage.marshal (m : icmpMessage) : List Byte :=
  if m.Type' = icmpv6EchoRequest ∨ m.Type' = icmpv6EchoReply then
    byteOf m.Type' :: byteOf m.Code :: byteOf 0 :: byteOf 0 :: m.bodyBytes
  else
    applyChecksum (byteOf m.Type' :: byteOf m.Code :: byteOf 0 :: byteOf 0 :: m.bodyBytes)

/-- `func parseICMPEcho(b []byte) (*icmpEcho, error)`:
`p := &icmpEcho{ID: int(b[0])<<8 | int(b[1]), Seq: int(b[2])<<8 | int(b[3])}`
reads `b[0] .. b[3]` unconditionally, so a body of fewer than 4 bytes is a
runtime index-out-of-range panic; `int(b[0])<<8 | int(b[1])` on bytes is
`256 * b[0] + b[1]`.  `Data` is allocated (and the remainder copied) only
when `bodylen > 4`, i.e. when `rest` is nonempty; otherwise it stays nil. -/
def parseICMPEcho (b : List Byte) : GoResult icmpEcho :=
  match b with
  | b0 :: b1 :: b2 :: b3 :: rest =>
      GoResult.ok
        { ID := 256 * b0.val + b1.val
          Seq := 256 * b2.val + b3.val
          Data := if 4 + rest.length > 4 then some rest else none }
  | _ => GoResult.indexOutOfRange

/-- `func parseICMPMessage(b []byte) (*icmpMessage, error)`:
fewer than 4 bytes returns `errors.New("message too short")`; otherwise
`Type`, `Code` and the big-endian `Checksum` are read from the first 4
bytes, and when `msglen > 4` and the type is one of the four echo types the
remainder `b[4:]` is parsed as an echo body (whose error — or panic —
propagates).  Any other type leaves the body absent. -/
def parseICMPMessage (b : List Byte) : GoResult icmpMessage :=
  match b with
  | b0 :: b1 :: b2 :: b3 :: rest =>
      let m : icmpMessage :=
        { Type' := b0.val, Code := b1.val, Checksum := 256 * b2.val + b3.val, Body := none }
      if 4 + rest.length > 4 then
        if m.Type' = icmpv4EchoRequest ∨ m.Type' = icmpv4EchoReply ∨
            m.Type' = icmpv6EchoRequest ∨ m.Type' = icmpv6EchoReply then
          match parseICMPEcho rest with
          | GoResult.ok p => GoResult.ok { m with Body := some p }
          | GoResult.err => GoResult.err
          | GoResult.indexOutOfRange => GoResult.indexOutOfRange
        else GoResult.ok m
      else GoResult.ok m
  | _ => GoResult.err

/-- Whether a packet would be skipped by the receive loops of
`TestConnICMPEcho` / `TestPacketConnICMPEcho`: it parses successfully and
its type is `icmpv4EchoRequest` or `icmpv6EchoRequest`
(`switch m.Type { case icmpv4EchoRequest, icmpv6EchoRequest: continue }`). -/
def isSkipped (p : List Byte) : Bool :=
  match parseICMPMessage p with
  | GoResult.ok m => m.Type' = icmpv4EchoRequest ∨ m.Type' = icmpv6EchoRequest
  | _ => false

/-- The receive/match loop of `TestConnICMPEcho` (`for { Read; parse;
switch m.Type { case icmpv4EchoRequest, icmpv6EchoRequest: continue };
break }`), run over a finite sequence of incoming packets: parse each in
turn, skip echo requests, return the first other message.  A read failure
(sequence exhausted) or a parse failure aborts the loop without a message
(`t.Fatalf`), modelled as `none`. -/
def receiveMatching : List (List Byte) → Option icmpMessage
  | [] => none
  | p :: ps =>
      match parseICMPMessage p with
      | GoResult.ok m =>
          if m.Type' = icmpv4EchoRequest ∨ m.Type' = icmpv6EchoRequest then
            receiveMatching ps
          else some m
      | _ => none

/-- Normalization of a decoded payload: marshalling a nil payload and an
allocated empty payload produce the same bytes, and decoding those bytes
yields a nil (`none`) payload; a nonempty payload survives unchanged. -/
def normData : Option (List Byte) → Option (List Byte)
  | some [] => none
  | some (x :: xs) => some (x :: xs)
  | none => none

/-- The low 16 bits of the folded one's-complement accumulator that the
checksum block of `icmpMessage.Marshal` computes over a buffer.  A buffer
"self-verifies" when this is `0xFFFF`. -/
def foldSum16 (b : List Byte) : Nat := csumFold (csumWrap b) % 2 ^ 16

/-- The 16-bit checksum value `icmpMessage.Marshal`'s checksum block would
store for buffer `b`: the big-endian word formed from `byte(^s)` (low) and
`byte(^s >> 8)` (high) as placed into bytes 2 and 3. -/
def recomputedChecksum (b : List Byte) : Nat :=
  256 * (compl32 (csumFold (csumWrap b)) / 256 % 256) +
    compl32 (csumFold (csumWrap b)) % 256

/-- The naive "zero-then-write" checksum placement that the spec (claim C4)
contrasts with the source's `^=`: the computed checksum bytes overwrite
bytes 2 and 3 instead of being XORed into them.  Declared only to be
compared with `applyChecksum`. -/
def applyChecksumOverwrite (b : List Byte) : List Byte :=
  match b with
  | t :: c :: x2 :: x3 :: rest =>
      t :: c ::
        byteOf (compl32 (csumFold (csumWrap (t :: c :: x2 :: x3 :: rest))) % 256) ::
        byteOf (compl32 (csumFold (csumWrap (t :: c :: x2 :: x3 :: rest))) / 256 % 256) ::
        rest
  | _ => b

/-- `icmpMessage.Marshal` with the naive zero-then-write checksum placement,
for comparison with the source's XOR-based `icmpMessage.marshal` (claim C4). -/
def marshalZeroThenWrite (m : icmpMessage) : List Byte :=
  if m.Type' = icmpv6EchoRequest ∨ m.Type' = icmpv6EchoReply then
    byteOf m.Type' :: byteOf m.Code :: byteOf 0 :: byteOf 0 :: m.bodyBytes
  else
    applyChecksumOverwrite (byteOf m.Type' :: byteOf m.Code :: byteOf 0 :: byteOf 0 :: m.bodyBytes)

theorem byteOf_val (n : Nat) : (byteOf n).val = n % 256 := rfl

theorem nat_zero_xor (x : Nat) : Nat.xor 0 x = x := Nat.zero_xor x

theorem csumAdd_cons2 (x y : Byte) (l : List Byte) :
    csumAdd (x :: y :: l) = (256 * y.val + x.val) + csumAdd l := rfl

/-- Decomposition of the two folding steps: for `S < 2^32` the low 16 bits
of `csumFold S` are the one's-complement residue of `S` — they differ from
`S` by a multiple of `0xFFFF`, lie below `0x10000`, and vanish only when
`S` itself is zero. -/
theorem fold_decomp (S : Nat) (hS : S < 2 ^ 32) :
    csumFold S % 65536 ≤ 65535 ∧
    S = csumFold S % 65536 + 65535 * (S / 65536 + csumFold S / 65536) ∧
    (csumFold S % 65536 = 0 → S = 0) := by
  have hfold : csumFold S = (S / 65536 + S % 65536) + (S / 65536 + S % 65536) / 65536 := by
    unfold csumFold
    norm_num
  rw [hfold]
  rcases Nat.lt_or_ge (S / 65536 + S % 65536) 65536 with h | h
  · omega
  · omega

/-- Adding the complement `0xFFFF - csumFold S % 2^16` back into a wrapped
accumulator `S < 2^32` always folds to `0xFFFF`; in particular the sum
`S + (0xFFFF - v)` never wraps past `2^32`. -/
theorem fold_selfverify (S : Nat) (hS : S < 2 ^ 32) :
    csumFold ((S + (65535 - csumFold S % 65536)) % 2 ^ 32) % 65536 = 65535 := by
  obtain ⟨hv1, hv2, hv3⟩ := fold_decomp S hS
  have hc : csumFold S / 65536 ≤ 1 := by
    have hfold : csumFold S = (S / 65536 + S % 65536) + (S / 65536 + S % 65536) / 65536 := by
      unfold csumFold
      norm_num
    omega
  have hsum : S + (65535 - csumFold S % 65536) =
      65535 * (S / 65536 + csumFold S / 65536 + 1) := by omega
  have hlt : 65535 * (S / 65536 + csumFold S / 65536 + 1) < 2 ^ 32 := by omega
  rw [hsum, Nat.mod_eq_of_lt hlt]
  obtain ⟨hw1, hw2, hw3⟩ := fold_decomp (65535 * (S / 65536 + csumFold S / 65536 + 1)) hlt
  omega

/-- Claim C1 (counterexample): the message `type=8, code=0, id=0x1234,
seq=0x0001`, empty payload, does NOT encode to
`[08 00 EC CA 12 34 00 01]` as the spec's correctness vector states. -/
theorem C1_vector_counterexample :
    icmpMessage.marshal
        { Type' := 8, Code := 0, Checksum := 0,
          Body := some { ID := 0x1234, Seq := 0x0001, Data := none } } ≠
      [0x08, 0x00, 0xEC, 0xCA, 0x12, 0x34, 0x00, 0x01] := by decide

/-- Claim C1 (amended): the message `type=8, code=0, id=0x1234, seq=0x0001`,
empty payload, encodes to the 8-byte sequence `[08 00 E5 CA 12 34 00 01]`
— the checksum, computed over the whole 8-byte message, is `0xE5CA`
(big-endian on the wire), not `0xECCA`. -/
theorem C1_vector_amended :
    icmpMessage.marshal
        { Type' := 8, Code := 0, Checksum := 0,
          Body := some { ID := 0x1234, Seq := 0x0001, Data := none } } =
      [0x08, 0x00, 0xE5, 0xCA, 0x12, 0x34, 0x00, 0x01] := by decide

/-- Claim C3 (code evaluated at the failing inputs): for inputs of total
length 5, 6 and 7 bytes whose first byte is a recognized echo type, the
decoder does NOT return the too-short error — `parseICMPEcho` reads
`b[0..3]` of a 1–3 byte body, indexing past the end of the buffer
(a runtime panic in Go). -/
theorem C3_truncated_body_panics :
    parseICMPMessage [8, 0, 0, 0, 0xAA] = GoResult.indexOutOfRange ∧
    parseICMPMessage [0, 0, 0, 0, 0xAA, 0xBB] = GoResult.indexOutOfRange ∧
    parseICMPMessage [128, 0, 0, 0, 0xAA, 0xBB, 0xCC] = GoResult.indexOutOfRange ∧
    parseICMPMessage [129, 0, 0, 0, 0xAA] = GoResult.indexOutOfRange ∧
    parseICMPMessage [8, 0, 0, 0, 0xAA] ≠ GoResult.err := by decide

/-- Claim C4 (counterexample): a nonzero pre-seeded checksum field is NOT
reflected in the encoded output — the encoding with `Checksum = 0xBEEF`
is byte-for-byte the one with `Checksum = 0`, because `Marshal` builds the
header with two zero checksum bytes and never reads `m.Checksum`. -/
theorem C4_preseed_counterexample :
    icmpMessage.marshal
        { Type' := 8, Code := 0, Checksum := 0xBEEF,
          Body := some { ID := 0x1234, Seq := 0x0001, Data := none } } =
      icmpMessage.marshal
        { Type' := 8, Code := 0, Checksum := 0,
          Body := some { ID := 0x1234, Seq := 0x0001, Data := none } } ∧
    icmpMessage.marshal
        { Type' := 8, Code := 0, Checksum := 0xBEEF,
          Body := some { ID := 0x1234, Seq := 0x0001, Data := none } } =
      [0x08, 0x00, 0xE5, 0xCA, 0x12, 0x34, 0x00, 0x01] := by decide

/-- Claim C4 (amended): `Marshal` emits the two header checksum bytes
initialized to zero — not to the pre-seeded checksum field, which it never
reads — and XORs the computed checksum into those zero bytes, which is
exactly the plain zero-then-write encoding: the XOR is a no-op relative to
overwriting, and the output is independent of the message's checksum
field. -/
theorem C4_checksum_ignored (m : icmpMessage) (c : Nat) :
    icmpMessage.marshal { m with Checksum := c } = icmpMessage.marshal m ∧
    icmpMessage.marshal m = marshalZeroThenWrite m := by
  constructor
  · rfl
  · unfold icmpMessage.marshal marshalZeroThenWrite
    split
    · rfl
    · simp only [applyChecksum, applyChecksumOverwrite, byteOf, Nat.zero_mod, nat_zero_xor]

/-- Claim C5: decoding fails with the too-short error whenever fewer than
4 input bytes are supplied, and no message is produced. -/
theorem C5_too_short (b : List Byte) (h : b.length < 4) :
    parseICMPMessage b = GoResult.err := by
  match b with
  | [] => rfl
  | [_] => rfl
  | [_, _] => rfl
  | [_, _, _] => rfl
  | _ :: _ :: _ :: _ :: _ => simp only [List.length_cons] at h; omega

/-- Claim C5 (witness): the spec's three concrete inputs `[]`, `[0x08]`
and `[0x08, 0x00, 0x00]` all fail with the too-short error. -/
theorem C5_too_short_witness :
    (([] : List Byte).length < 4 ∧ parseICMPMessage [] = GoResult.err) ∧
    (([0x08] : List Byte).length < 4 ∧ parseICMPMessage [0x08] = GoResult.err) ∧
    (([0x08, 0x00, 0x00] : List Byte).length < 4 ∧
      parseICMPMessage [0x08, 0x00, 0x00] = GoResult.err) :=
  ⟨⟨by decide, C5_too_short [] (by decide)⟩,
   ⟨by decide, C5_too_short [0x08] (by decide)⟩,
   ⟨by decide, C5_too_short [0x08, 0x00, 0x00] (by decide)⟩⟩

/-- Claim C7 (counterexample): an 8-byte echo message decodes with a nil
(`none`) payload, not the allocated empty (`some []`) payload the claim
asserts — `parseICMPEcho` only allocates `Data` when more than 4 body
bytes remain. -/
theorem C7_empty_payload_counterexample :
    parseICMPMessage [8, 0, 0, 0, 0x12, 0x34, 0x00, 0x01] =
      GoResult.ok { Type' := 8, Code := 0, Checksum := 0,
                    Body := some { ID := 0x1234, Seq := 0x0001, Data := none } } ∧
    parseICMPMessage [8, 0, 0, 0, 0x12, 0x34, 0x00, 0x01] ≠
      GoResult.ok { Type' := 8, Code := 0, Checksum := 0,
                    Body := some { ID := 0x1234, Seq := 0x0001, Data := some [] } } := by
  decide

/-- Claim C7 (amended): for every 8-byte input whose first byte is a
recognized echo type, decoding yields an echo body whose identifier is the
big-endian word at offsets 4–5, whose sequence is the big-endian word at
offsets 6–7, and whose payload is absent (nil, of zero length) — not an
allocated empty slice. -/
theorem C7_len8_amended (b0 b1 b2 b3 b4 b5 b6 b7 : Byte)
    (ht : b0.val = 0 ∨ b0.val = 8 ∨ b0.val = 128 ∨ b0.val = 129) :
    parseICMPMessage [b0, b1, b2, b3, b4, b5, b6, b7] =
      GoResult.ok { Type' := b0.val, Code := b1.val,
                    Checksum := 256 * b2.val + b3.val,
                    Body := some { ID := 256 * b4.val + b5.val,
                                   Seq := 256 * b6.val + b7.val, Data := none } } := by
  rcases ht with h | h | h | h <;>
    simp [parseICMPMessage, parseICMPEcho, h, icmpv4EchoRequest, icmpv4EchoReply,
      icmpv6EchoRequest, icmpv6EchoReply]

/-- Claim C7 (witness): the 8-byte echo request with id `0x1234`,
seq `0x0001`. -/
theorem C7_len8_witness :
    ((8 : Byte).val = 0 ∨ (8 : Byte).val = 8 ∨ (8 : Byte).val = 128 ∨
      (8 : Byte).val = 129) ∧
    parseICMPMessage [8, 0, 0, 0, 0x12, 0x34, 0x00, 0x02] =
      GoResult.ok { Type' := 8, Code := 0, Checksum := 0,
                    Body := some { ID := 0x1234, Seq := 0x0002, Data := none } } :=
  ⟨by decide, C7_len8_amended 8 0 0 0 0x12 0x34 0x00 0x02 (by decide)⟩

/-- Claim C9: any input of at least 4 bytes whose first byte is not one of
the four recognized echo types decodes successfully to a message with the
parsed type, code and checksum and an absent body, regardless of trailing
bytes. -/
theorem C9_unrecognized_passthrough (b0 b1 b2 b3 : Byte) (rest : List Byte)
    (h0 : b0.val ≠ 0) (h8 : b0.val ≠ 8) (h128 : b0.val ≠ 128) (h129 : b0.val ≠ 129) :
    parseICMPMessage (b0 :: b1 :: b2 :: b3 :: rest) =
      GoResult.ok { Type' := b0.val, Code := b1.val,
                    Checksum := 256 * b2.val + b3.val, Body := none } := by
  rcases rest with _ | ⟨r, rs⟩
  · rfl
  · simp [parseICMPMessage, h0, h8, h128, h129, icmpv4EchoRequest, icmpv4EchoReply,
      icmpv6EchoRequest, icmpv6EchoReply]

/-- Claim C9 (witness): `Decode([0xFF, 0x00, 0x00, 0x00, 0xAA, 0xBB])`
succeeds with `type = 255` and an absent body. -/
theorem C9_unrecognized_witness :
    ((0xFF : Byte).val ≠ 0 ∧ (0xFF : Byte).val ≠ 8 ∧ (0xFF : Byte).val ≠ 128 ∧
      (0xFF : Byte).val ≠ 129) ∧
    parseICMPMessage [0xFF, 0x00, 0x00, 0x00, 0xAA, 0xBB] =
      GoResult.ok { Type' := 255, Code := 0, Checksum := 0, Body := none } :=
  ⟨by decide,
   C9_unrecognized_passthrough 0xFF 0x00 0x00 0x00 [0xAA, 0xBB]
     (by decide) (by decide) (by decide) (by decide)⟩

/-- Claim C6: for an IPv6-family echo type the encoder performs no checksum
computation — the output is exactly the header as constructed (type, code,
two zero checksum bytes) followed by the body encoding; and the code byte
and body bytes coincide with the IPv4-case encoding of the same message
(positions 4 and up, and the byte at position 1, are identical). -/
theorem C6_ipv6_skips_checksum (m : icmpMessage)
    (h : m.Type' = 128 ∨ m.Type' = 129) :
    icmpMessage.marshal m =
      byteOf m.Type' :: byteOf m.Code :: byteOf 0 :: byteOf 0 :: m.bodyBytes ∧
    (icmpMessage.marshal { m with Type' := 8 }).drop 4 =
      (icmpMessage.marshal m).drop 4 ∧
    (icmpMessage.marshal { m with Type' := 8 }).take 2 =
      [byteOf 8, byteOf m.Code] := by
  obtain ⟨t, co, cs, bo⟩ := m
  simp only at h
  rcases h with h | h <;> subst h <;>
    exact ⟨by simp [icmpMessage.marshal, icmpv6EchoRequest, icmpv6EchoReply],
      by simp [icmpMessage.marshal, icmpv6EchoRequest, icmpv6EchoReply, applyChecksum,
        icmpMessage.bodyBytes],
      by simp [icmpMessage.marshal, icmpv6EchoRequest, icmpv6EchoReply, applyChecksum,
        icmpMessage.bodyBytes]⟩

/-- Claim C6 (witness): a concrete IPv6 echo request with a 1-byte payload. -/
theorem C6_ipv6_skips_checksum_witness :
    ((128 : Nat) = 128 ∨ (128 : Nat) = 129) ∧
    (icmpMessage.marshal
        { Type' := 128, Code := 0, Checksum := 0,
          Body := some { ID := 1, Seq := 2, Data := some [3] } } =
      byteOf 128 :: byteOf 0 :: byteOf 0 :: byteOf 0 ::
        icmpMessage.bodyBytes
          { Type' := 128, Code := 0, Checksum := 0,
            Body := some { ID := 1, Seq := 2, Data := some [3] } } ∧
    (icmpMessage.marshal
        { Type' := 8, Code := 0, Checksum := 0,
          Body := some { ID := 1, Seq := 2, Data := some [3] } }).drop 4 =
      (icmpMessage.marshal
        { Type' := 128, Code := 0, Checksum := 0,
          Body := some { ID := 1, Seq := 2, Data := some [3] } }).drop 4 ∧
    (icmpMessage.marshal
        { Type' := 8, Code := 0, Checksum := 0,
          Body := some { ID := 1, Seq := 2, Data := some [3] } }).take 2 =
      [byteOf 8, byteOf 0]) :=
  ⟨by decide,
   C6_ipv6_skips_checksum
     { Type' := 128, Code := 0, Checksum := 0,
       Body := some { ID := 1, Seq := 2, Data := some [3] } } (by decide)⟩

theorem receiveMatching_ne_request (ps : List (List Byte)) (m : icmpMessage)
    (h : receiveMatching ps = some m) :
    m.Type' ≠ icmpv4EchoRequest ∧ m.Type' ≠ icmpv6EchoRequest := by
  induction ps with
  | nil => simp [receiveMatching] at h
  | cons p ps ih =>
      simp only [receiveMatching] at h
      cases hp : parseICMPMessage p with
      | ok mp =>
          rw [hp] at h
          simp only at h
          by_cases hreq : mp.Type' = icmpv4EchoRequest ∨ mp.Type' = icmpv6EchoRequest
          · rw [if_pos hreq] at h
            exact ih h
          · rw [if_neg hreq] at h
            injection h with h
            subst h
            push_neg at hreq
            exact hreq
      | err => rw [hp] at h; cases h
      | indexOutOfRange => rw [hp] at h; cases h

theorem receiveMatching_first (pre : List (List Byte)) (pkt : List Byte)
    (post : List (List Byte)) (m : icmpMessage)
    (hpre : ∀ q ∈ pre, isSkipped q = true)
    (hp : parseICMPMessage pkt = GoResult.ok m)
    (h8 : m.Type' ≠ icmpv4EchoRequest) (h128 : m.Type' ≠ icmpv6EchoRequest) :
    receiveMatching (pre ++ pkt :: post) = some m := by
  induction pre with
  | nil =>
      simp only [List.nil_append, receiveMatching, hp]
      rw [if_neg (by tauto)]
  | cons q qs ih =>
      have hq := hpre q (by simp)
      simp only [List.cons_append, receiveMatching]
      cases hpq : parseICMPMessage q with
      | ok mq =>
          dsimp only
          rw [if_pos (by simpa [isSkipped, hpq] using hq)]
          exact ih (fun r hr => hpre r (by simp [hr]))
      | err => simp [isSkipped, hpq] at hq
      | indexOutOfRange => simp [isSkipped, hpq] at hq

/-- Claim C8: over any finite sequence of packets that all decode
successfully, the receive/match loop skips every packet whose decoded type
is an echo request (8 or 128) and returns the message of the first packet
whose decoded type is not an echo request; consequently a returned message
never has an echo-request type. -/
theorem C8_receive_matching (ps : List (List Byte))
    (hok : ∀ p ∈ ps, (parseICMPMessage p).isOk = true) :
    (∀ m, receiveMatching ps = some m →
        m.Type' ≠ icmpv4EchoRequest ∧ m.Type' ≠ icmpv6EchoRequest) ∧
    (∀ pre pkt post m, ps = pre ++ pkt :: post →
        (∀ q ∈ pre, isSkipped q = true) →
        parseICMPMessage pkt = GoResult.ok m →
        m.Type' ≠ icmpv4EchoRequest → m.Type' ≠ icmpv6EchoRequest →
        receiveMatching ps = some m) := by
  refine ⟨fun m h => receiveMatching_ne_request ps m h, ?_⟩
  intro pre pkt post m hps hpre hp h8 h128
  subst hps
  exact receiveMatching_first pre pkt post m hpre hp h8 h128

/-- Claim C8 (witness): a transport that first yields an echo request and
then an echo reply carrying the caller's key `id=0x1234, seq=0x0001`: the
loop skips the first packet and returns the second. -/
theorem C8_receive_matching_witness :
    (∀ p ∈ [([8, 0, 0, 0] : List Byte), [0, 0, 0, 0, 0x12, 0x34, 0x00, 0x01]],
        (parseICMPMessage p).isOk = true) ∧
    receiveMatching [([8, 0, 0, 0] : List Byte), [0, 0, 0, 0, 0x12, 0x34, 0x00, 0x01]] =
      some { Type' := 0, Code := 0, Checksum := 0,
             Body := some { ID := 0x1234, Seq := 0x0001, Data := none } } :=
  ⟨by decide,
   (C8_receive_matching [([8, 0, 0, 0] : List Byte), [0, 0, 0, 0, 0x12, 0x34, 0x00, 0x01]]
       (by decide)).2
     [([8, 0, 0, 0] : List Byte)] [0, 0, 0, 0, 0x12, 0x34, 0x00, 0x01] []
     { Type' := 0, Code := 0, Checksum := 0,
       Body := some { ID := 0x1234, Seq := 0x0001, Data := none } }
     rfl (by decide) (by decide) (by decide) (by decide)⟩

theorem applyChecksum_cons (t c x2 x3 : Byte) (rest : List Byte) :
    applyChecksum (t :: c :: x2 :: x3 :: rest) =
      t :: c ::
        byteOf (Nat.xor x2.val
          (compl32 (csumFold (csumWrap (t :: c :: x2 :: x3 :: rest))) % 256)) ::
        byteOf (Nat.xor x3.val
          (compl32 (csumFold (csumWrap (t :: c :: x2 :: x3 :: rest))) / 256 % 256)) ::
        rest := rfl

/-- Parsing a marshalled echo body behind any 4-byte header whose type byte
is one of the four echo types: the identifier and sequence round-trip, and
the payload comes back `normData`-normalized (nil and empty both decode to
nil). -/
theorem parse_marshal_echo (t c y2 y3 : Byte) (e : icmpEcho)
    (ht : t.val = 0 ∨ t.val = 8 ∨ t.val = 128 ∨ t.val = 129)
    (hid : e.ID < 65536) (hsq : e.Seq < 65536) :
    parseICMPMessage (t :: c :: y2 :: y3 :: e.marshal) =
      GoResult.ok { Type' := t.val, Code := c.val,
                    Checksum := 256 * y2.val + y3.val,
                    Body := some { ID := e.ID, Seq := e.Seq,
                                   Data := normData e.Data } } := by
  obtain ⟨eid, esq, ed⟩ := e
  simp only at hid hsq
  have hID : 256 * (eid / 256 % 256) + eid % 256 = eid := by omega
  have hSeq : 256 * (esq / 256 % 256) + esq % 256 = esq := by omega
  rcases ht with h | h | h | h <;>
    rcases ed with _ | ⟨_ | ⟨x, xs⟩⟩ <;>
      simp [parseICMPMessage, parseICMPEcho, icmpEcho.marshal, normData, byteOf, h,
        icmpv4EchoRequest, icmpv4EchoReply, icmpv6EchoRequest, icmpv6EchoReply, hID, hSeq]

/-- Claim C2 (counterexample): for an IPv6-family message the decoded
checksum field is NOT the caller-seeded value — the encoder emits zero
checksum bytes without reading the field — and a non-nil empty payload
comes back nil: the claim's exact reproduction fails. -/
theorem C2_roundtrip_counterexample :
    parseICMPMessage (icmpMessage.marshal
        { Type' := 128, Code := 0, Checksum := 0xBEEF,
          Body := some { ID := 1, Seq := 2, Data := some [] } }) =
      GoResult.ok { Type' := 128, Code := 0, Checksum := 0,
                    Body := some { ID := 1, Seq := 2, Data := none } } ∧
    parseICMPMessage (icmpMessage.marshal
        { Type' := 128, Code := 0, Checksum := 0xBEEF,
          Body := some { ID := 1, Seq := 2, Data := some [] } }) ≠
      GoResult.ok { Type' := 128, Code := 0, Checksum := 0xBEEF,
                    Body := some { ID := 1, Seq := 2, Data := some [] } } := by
  decide

/-- Claim C2 (amended): for every message with a type in
`{0, 8, 128, 129}`, a code in `u8` range and an echo body with identifier
and sequence in `u16` range, decoding the encoding succeeds and reproduces
the type, the code, the identifier and the sequence exactly, and the
payload up to byte content (a nil or empty payload decodes as nil); for
the IPv6-family types the decoded checksum field is `0` — the encoder
emits zero checksum bytes, so a caller-seeded checksum value is lost, not
preserved. -/
theorem C2_roundtrip_amended (m : icmpMessage) (e : icmpEcho)
    (hb : m.Body = some e)
    (ht : m.Type' = 0 ∨ m.Type' = 8 ∨ m.Type' = 128 ∨ m.Type' = 129)
    (hc : m.Code < 256) (hid : e.ID < 65536) (hsq : e.Seq < 65536) :
    ∃ cs : Nat,
      parseICMPMessage (icmpMessage.marshal m) =
        GoResult.ok { Type' := m.Type', Code := m.Code, Checksum := cs,
                      Body := some { ID := e.ID, Seq := e.Seq,
                                     Data := normData e.Data } } ∧
      ((m.Type' = 128 ∨ m.Type' = 129) → cs = 0) := by
  have hbody : m.bodyBytes = e.marshal := by
    simp [icmpMessage.bodyBytes, hb, icmpEcho.len]
  have htle : m.Type' < 256 := by rcases ht with h | h | h | h <;> omega
  have htv : (byteOf m.Type').val = m.Type' := by
    rw [byteOf_val]; omega
  have hcv : (byteOf m.Code).val = m.Code := by
    rw [byteOf_val]; omega
  have hts : (byteOf m.Type').val = 0 ∨ (byteOf m.Type').val = 8 ∨
      (byteOf m.Type').val = 128 ∨ (byteOf m.Type').val = 129 := by
    rw [htv]; exact ht
  by_cases h6 : m.Type' = icmpv6EchoRequest ∨ m.Type' = icmpv6EchoReply
  · have hm : icmpMessage.marshal m =
        byteOf m.Type' :: byteOf m.Code :: byteOf 0 :: byteOf 0 :: e.marshal := by
      rw [icmpMessage.marshal, if_pos h6, hbody]
    refine ⟨256 * (byteOf 0).val + (byteOf 0).val, ?_, fun _ => by rw [byteOf_val]⟩
    rw [hm, parse_marshal_echo _ _ _ _ e hts hid hsq, htv, hcv]
  · have hm : icmpMessage.marshal m =
        applyChecksum (byteOf m.Type' :: byteOf m.Code :: byteOf 0 :: byteOf 0 :: e.marshal) := by
      rw [icmpMessage.marshal, if_neg h6, hbody]
    rw [hm, applyChecksum_cons]
    set X2 := byteOf (Nat.xor (byteOf 0).val
      (compl32 (csumFold (csumWrap
        (byteOf m.Type' :: byteOf m.Code :: byteOf 0 :: byteOf 0 :: e.marshal))) % 256)) with hX2
    set X3 := byteOf (Nat.xor (byteOf 0).val
      (compl32 (csumFold (csumWrap
        (byteOf m.Type' :: byteOf m.Code :: byteOf 0 :: byteOf 0 :: e.marshal))) / 256 % 256)) with hX3
    refine ⟨256 * X2.val + X3.val, ?_, fun hh => absurd (by
      simpa [icmpv6EchoRequest, icmpv6EchoReply] using hh) h6⟩
    rw [parse_marshal_echo _ _ _ _ e hts hid hsq, htv, hcv]

/-- Claim C2 (witness): a concrete IPv4 echo request with a 1-byte payload
round-trips. -/
theorem C2_roundtrip_witness :
    (({ Type' := 8, Code := 0, Checksum := 0,
        Body := some { ID := 0x1234, Seq := 0x0001, Data := some [0xAB] } } :
          icmpMessage).Body =
        some { ID := 0x1234, Seq := 0x0001, Data := some [0xAB] } ∧
      ((8 : Nat) = 0 ∨ (8 : Nat) = 8 ∨ (8 : Nat) = 128 ∨ (8 : Nat) = 129) ∧
      (0 : Nat) < 256 ∧ (0x1234 : Nat) < 65536 ∧ (0x0001 : Nat) < 65536) ∧
    (∃ cs : Nat,
      parseICMPMessage (icmpMessage.marshal
          { Type' := 8, Code := 0, Checksum := 0,
            Body := some { ID := 0x1234, Seq := 0x0001, Data := some [0xAB] } }) =
        GoResult.ok { Type' := 8, Code := 0, Checksum := cs,
                      Body := some { ID := 0x1234, Seq := 0x0001,
                                     Data := normData (some [0xAB]) } } ∧
      (((8 : Nat) = 128 ∨ (8 : Nat) = 129) → cs = 0)) :=
  ⟨⟨rfl, by decide, by decide, by decide, by decide⟩,
   C2_roundtrip_amended
     { Type' := 8, Code := 0, Checksum := 0,
       Body := some { ID := 0x1234, Seq := 0x0001, Data := some [0xAB] } }
     { ID := 0x1234, Seq := 0x0001, Data := some [0xAB] }
     rfl (by decide) (by decide) (by decide) (by decide)⟩

/-- Placing the checksum into a zero-checksum header makes the whole buffer
self-verifying: the folded accumulator over the output is `0xFFFF`.  The
argument works for a wrapped `uint32` accumulator of any message length. -/
theorem applyChecksum_selfverify (t c : Byte) (rest : List Byte) :
    foldSum16 (applyChecksum (t :: c :: byteOf 0 :: byteOf 0 :: rest)) = 0xFFFF := by
  rw [applyChecksum_cons]
  have hSlt : csumWrap (t :: c :: byteOf 0 :: byteOf 0 :: rest) < 2 ^ 32 := by
    unfold csumWrap
    exact Nat.mod_lt _ (by norm_num)
  set S := csumWrap (t :: c :: byteOf 0 :: byteOf 0 :: rest) with hS
  have hs2 : csumFold S ≤ 131071 := by
    unfold csumFold
    omega
  have hadd : csumAdd (t :: c ::
      byteOf (Nat.xor (byteOf 0).val (compl32 (csumFold S) % 256)) ::
      byteOf (Nat.xor (byteOf 0).val (compl32 (csumFold S) / 256 % 256)) :: rest) =
      csumAdd (t :: c :: byteOf 0 :: byteOf 0 :: rest) + (65535 - csumFold S % 65536) := by
    rw [csumAdd_cons2, csumAdd_cons2, csumAdd_cons2, csumAdd_cons2]
    simp only [byteOf_val, Nat.zero_mod, nat_zero_xor]
    unfold compl32
    omega
  unfold foldSum16 csumWrap
  rw [hadd]
  have hmod : (csumAdd (t :: c :: byteOf 0 :: byteOf 0 :: rest) +
      (65535 - csumFold S % 65536)) % 2 ^ 32 =
      (S + (65535 - csumFold S % 65536)) % 2 ^ 32 := by
    rw [hS]
    unfold csumWrap
    omega
  rw [hmod]
  have h := fold_selfverify S hSlt
  omega

/-- A buffer whose folded accumulator is `0xFFFF` has recomputed checksum
zero. -/
theorem recompute_zero (b : List Byte) (h : foldSum16 b = 0xFFFF) :
    recomputedChecksum b = 0 := by
  unfold foldSum16 at h
  unfold recomputedChecksum compl32
  have hlt : csumWrap b < 2 ^ 32 := by
    unfold csumWrap
    exact Nat.mod_lt _ (by norm_num)
  have hs2 : csumFold (csumWrap b) ≤ 131071 := by
    unfold csumFold
    omega
  omega

/-- Claim C10: for every message whose type is not IPv6-family (neither 128
nor 129) carrying an echo body with identifier and sequence in `u16`
range, the encoded output self-verifies under the Internet checksum: the
one's-complement fold over the entire output, stored checksum bytes
included, is `0xFFFF`, i.e. recomputing the checksum over the encoded
output gives zero. -/
theorem C10_checksum_selfverify (m : icmpMessage) (e : icmpEcho)
    (hb : m.Body = some e) (h128 : m.Type' ≠ 128) (h129 : m.Type' ≠ 129)
    (hid : e.ID < 65536) (hsq : e.Seq < 65536) :
    foldSum16 (icmpMessage.marshal m) = 0xFFFF ∧
    recomputedChecksum (icmpMessage.marshal m) = 0 := by
  have hbody : m.bodyBytes = e.marshal := by
    simp [icmpMessage.bodyBytes, hb, icmpEcho.len]
  have h6 : ¬(m.Type' = icmpv6EchoRequest ∨ m.Type' = icmpv6EchoReply) := by
    simp only [icmpv6EchoRequest, icmpv6EchoReply]
    tauto
  have hm : icmpMessage.marshal m =
      applyChecksum (byteOf m.Type' :: byteOf m.Code :: byteOf 0 :: byteOf 0 :: e.marshal) := by
    rw [icmpMessage.marshal, if_neg h6, hbody]
  rw [hm]
  have h1 := applyChecksum_selfverify (byteOf m.Type') (byteOf m.Code) e.marshal
  exact ⟨h1, recompute_zero _ h1⟩

/-- Claim C10 (witness): the concrete echo request `type=8, id=0x1234,
seq=0x0001`, payload `[0xAB]` (odd total length, exercising the trailing
byte) self-verifies. -/
theorem C10_checksum_selfverify_witness :
    (({ Type' := 8, Code := 0, Checksum := 0,
        Body := some { ID := 0x1234, Seq := 0x0001, Data := some [0xAB] } } :
          icmpMessage).Body =
        some { ID := 0x1234, Seq := 0x0001, Data := some [0xAB] } ∧
      (8 : Nat) ≠ 128 ∧ (8 : Nat) ≠ 129 ∧
      (0x1234 : Nat) < 65536 ∧ (0x0001 : Nat) < 65536) ∧
    (foldSum16 (icmpMessage.marshal
        { Type' := 8, Code := 0, Checksum := 0,
          Body := some { ID := 0x1234, Seq := 0x0001, Data := some [0xAB] } }) = 0xFFFF ∧
      recomputedChecksum (icmpMessage.marshal
        { Type' := 8, Code := 0, Checksum := 0,
          Body := some { ID := 0x1234, Seq := 0x0001, Data := some [0xAB] } }) = 0) :=
  ⟨⟨rfl, by decide, by decide, by decide, by decide⟩,
   C10_checksum_selfverify
     { Type' := 8, Code := 0, Checksum := 0,
       Body := some { ID := 0x1234, Seq := 0x0001, Data := some [0xAB] } }
     { ID := 0x1234, Seq := 0x0001, Data := some [0xAB] }
     rfl (by decide) (by decide) (by decide) (by decide)⟩
